import Mathlib

/-!
Verification of the contact-management backend (FastAPI + SQLAlchemy).
Shallow embedding: the database is a list of rows, async repository
functions become pure state-passing functions, HTTP exceptions become
explicit result constructors.  Definitions follow the source files
`src/repository/contacts.py`, `src/routes/auth.py`,
`src/routes/contacts.py` and `src/database/db.py`; the user-directory
repository (`src/repository/users.py`) and the credential service are
absent from the source tree and are modelled from the spec where noted.
-/

namespace HWW14

/-- Role enumeration from the data model: {user, moderator, admin}. -/
inductive Role where
  | user
  | moderator
  | admin
deriving DecidableEq, Repr

/-- User row (`src/database/models.py` is absent; fields as used by the
routes and described by the spec's data model). `password` holds the hash. -/
structure User where
  id : Nat
  email : String
  username : String
  password : String
  confirmed : Bool
  refresh_token : Option String
  role : Role
deriving DecidableEq, Repr

/-- Contact row: owning user is the `user_id` foreign key
(SQLAlchemy `filter_by(user=user)` compares by the owning user). -/
structure Contact where
  id : Nat
  first_name : String
  last_name : String
  email : String
  phone_number : String
  birthday : Nat
  data : Option String
  user_id : Nat
deriving DecidableEq, Repr

/-- Request body for contact creation/update (`ContactSchema` /
`ContactUpdateSchema`; the update schema requires every field). -/
structure ContactSchema where
  first_name : String
  last_name : String
  email : String
  phone_number : String
  birthday : Nat
  data : Option String
deriving DecidableEq, Repr

/-- SQLAlchemy `Result.scalar_one_or_none` on the rows a query returned:
`none` for an empty result, the row for a singleton. -/
def scalarOneOrNone {α : Type} : List α → Option α
  | [a] => some a
  | _ => none

/-! ### `src/repository/contacts.py` -/

/-- Source `get_contacts(limit, offset, db, user)`:
`select(Contact).filter_by(user=user).offset(offset).limit(limit)`. -/
def get_contacts (limit offset : Nat) (db : List Contact) (user : User) : List Contact :=
  (((db.filter (fun c => c.user_id = user.id)).drop offset).take limit)

/-- Source `get_all_contacts(limit, offset, db)`:
`select(Contact).offset(offset).limit(limit)` — no owner filter. -/
def get_all_contacts (limit offset : Nat) (db : List Contact) : List Contact :=
  ((db.drop offset).take limit)

/-- Source `get_contact(contact_id, db, user)`:
`select(Contact).filter_by(id=contact_id, user=user)` then `scalar_one_or_none`. -/
def get_contact (contact_id : Nat) (db : List Contact) (user : User) : Option Contact :=
  scalarOneOrNone (db.filter (fun c => c.id = contact_id ∧ c.user_id = user.id))

/-- Source `create_todo(body, db, user)`: builds a `Contact` from the body with the
caller as owner, adds it and commits; the fresh row id is taken as input
(the database assigns it). Returns the created contact and the new state. -/
def create_todo (freshId : Nat) (body : ContactSchema) (db : List Contact) (user : User) :
    Contact × List Contact :=
  let contact : Contact :=
    { id := freshId, first_name := body.first_name, last_name := body.last_name
      email := body.email, phone_number := body.phone_number
      birthday := body.birthday, data := body.data, user_id := user.id }
  (contact, db ++ [contact])

/-- Source `update_contact(contact_id, body, db, user)`: same owner-filtered lookup;
when found, replaces every field and commits; returns the contact (or `none`)
and the new state. -/
def update_contact (contact_id : Nat) (body : ContactSchema) (db : List Contact)
    (user : User) : Option Contact × List Contact :=
  match scalarOneOrNone (db.filter (fun c => c.id = contact_id ∧ c.user_id = user.id)) with
  | none => (none, db)
  | some c =>
    let c' : Contact :=
      { c with first_name := body.first_name, last_name := body.last_name
               email := body.email, phone_number := body.phone_number
               birthday := body.birthday, data := body.data }
    (some c', db.map (fun x => if x = c then c' else x))

/-- Source `remove_contact(contact_id, db, user)`: same owner-filtered lookup;
when found, deletes the row and commits. -/
def remove_contact (contact_id : Nat) (db : List Contact) (user : User) :
    Option Contact × List Contact :=
  match scalarOneOrNone (db.filter (fun c => c.id = contact_id ∧ c.user_id = user.id)) with
  | none => (none, db)
  | some c => (some c, db.filter (fun x => x ≠ c))

/-! ### User directory (`src/repository/users.py` — absent from the tree) -/

/-- Modelled from the spec: `src/repository/users.py` is missing from the
source tree; per §4.2 `get_user_by_email(email) -> User | none` looks the
account up by email. -/
def get_user_by_email (email : String) (db : List User) : Option User :=
  db.find? (fun u => u.email = email)

/-- Modelled from the spec: `src/repository/users.py` is missing; per §4.2
`create_user(signup_data)` persists a new User with `confirmed=false`
(avatar enrichment is out of this model). The database assigns the fresh id. -/
def create_user (freshId : Nat) (email username password : String) (db : List User) :
    User × List User :=
  let u : User :=
    { id := freshId, email := email, username := username, password := password
      confirmed := false, refresh_token := none, role := Role.user }
  (u, db ++ [u])

/-- Modelled from the spec: `src/repository/users.py` is missing; per §4.2
`update_token(user, token_or_none)` overwrites that user's `refresh_token`
field (passing none forces logout). -/
def update_token (user : User) (token : Option String) (db : List User) : List User :=
  db.map (fun u => if u.id = user.id then { u with refresh_token := token } else u)

/-- Modelled from the spec: `src/repository/users.py` is missing; per §4.2
`confirmed_email(email)` sets `confirmed=true` for the matching user. -/
def confirmed_email_repo (email : String) (db : List User) : List User :=
  db.map (fun u => if u.email = email then { u with confirmed := true } else u)

/-! ### `src/routes/auth.py` -/

/-- Outcome of the `/auth/login` handler. `typeError` is the Python
`TypeError` raised by the bad-password branch: the source writes
`HTTPException(tatus_code=status.HTTP_401_UNAUTHORIZED, ...)` and
`HTTPException` has no parameter named `tatus_code`, so constructing the
exception itself faults (surfaced as a generic 500 server error, not 401). -/
inductive LoginResult where
  | httpError (statusCode : Nat) (detail : String)
  | typeError
  | tokens (access_token refresh_token : String) (token_type : String)
deriving DecidableEq, Repr

/-- Source `login(body, db)`. `verify` stands for
`auth_service.verify_password` and `newAccess`/`newRefresh` for the freshly
created JWTs (the credential service is out of this model); both are inputs.
Returns the response and the user table after the handler. -/
def login (verify : String → String → Bool) (newAccess newRefresh : String)
    (username password : String) (db : List User) : LoginResult × List User :=
  match get_user_by_email username db with
  | none => (LoginResult.httpError 401 "Invalid email", db)
  | some user =>
    if !user.confirmed then
      (LoginResult.httpError 401 "Email not confirmed", db)
    else if !(verify password user.password) then
      (LoginResult.typeError, db)
    else
      (LoginResult.tokens newAccess newRefresh "bearer",
        update_token user (some newRefresh) db)

/-- Outcome of the `/auth/refresh_token` handler. `attributeError` is the
Python `AttributeError` from reading `user.refresh_token` when
`get_user_by_email` returned `None` (the handler never checks). -/
inductive RefreshResult where
  | httpError (statusCode : Nat) (detail : String)
  | attributeError
  | tokens (access_token refresh_token : String) (token_type : String)
deriving DecidableEq, Repr

/-- Source `refresh_token(credentials, db)`. `decode` stands for
`auth_service.decode_refresh_token` (`none` = it raised on a bad token);
`newAccess`/`newRefresh` are the freshly created JWTs. On a stored-token
mismatch the handler stores `None` via `update_token` and raises 401. -/
def refresh_token_route (decode : String → Option String) (newAccess newRefresh : String)
    (token : String) (db : List User) : RefreshResult × List User :=
  match decode token with
  | none => (RefreshResult.httpError 401 "Could not validate credentials", db)
  | some email =>
    match get_user_by_email email db with
    | none => (RefreshResult.attributeError, db)
    | some user =>
      if user.refresh_token ≠ some token then
        (RefreshResult.httpError 401 "Invalid refresh token", update_token user none db)
      else
        (RefreshResult.tokens newAccess newRefresh "bearer",
          update_token user (some newRefresh) db)

/-- Outcome of the `/auth/confirmed_email/{token}` handler. -/
inductive ConfirmResult where
  | httpError (statusCode : Nat) (detail : String)
  | message (msg : String)
deriving DecidableEq, Repr

/-- Source `confirmed_email(token, db)` route handler. `getEmail` stands for
`auth_service.get_email_from_token` (`none` = it raised on a bad token).
Already-confirmed users get a message back with no mutation; otherwise the
repository mutation `confirmed_email` runs. -/
def confirmed_email_route (getEmail : String → Option String) (token : String)
    (db : List User) : ConfirmResult × List User :=
  match getEmail token with
  | none => (ConfirmResult.httpError 400 "Invalid token for email verification", db)
  | some email =>
    match get_user_by_email email db with
    | none => (ConfirmResult.httpError 400 "Verification error", db)
    | some user =>
      if user.confirmed then
        (ConfirmResult.message "Your email is already confirmed", db)
      else
        (ConfirmResult.message "Email confirmed", confirmed_email_repo email db)

/-- Outcome of the `/auth/signup` handler. -/
inductive SignupResult where
  | httpError (statusCode : Nat) (detail : String)
  | created (statusCode : Nat) (user : User)
deriving DecidableEq, Repr

/-- Source `signup(body, bt, db)`. `hash` stands for
`auth_service.get_password_hash`. The returned `Bool` records whether a
confirmation email was scheduled on the background-task queue
(`bt.add_task` merely schedules; delivery happens after the response and
cannot affect it). Returns (response, scheduled?, user table). -/
def signup (hash : String → String) (freshId : Nat) (email username password : String)
    (db : List User) : SignupResult × Bool × List User :=
  match get_user_by_email email db with
  | some _ => (SignupResult.httpError 409 "Account already exists", false, db)
  | none =>
    let hashed := hash password
    let (new_user, db') := create_user freshId email username hashed db
    (SignupResult.created 201 new_user, true, db')

/-- Outcome of the `/auth/request_email` handler. `attributeError` is the
Python `AttributeError` from reading `user.confirmed` when
`get_user_by_email` returned `None`: the handler evaluates
`if user.confirmed:` before its `if user:` existence check. -/
inductive RequestEmailResult where
  | attributeError
  | message (msg : String)
deriving DecidableEq, Repr

/-- Source `request_email(body, db)`. Returns the response and whether a
confirmation email was scheduled. -/
def request_email_route (email : String) (db : List User) :
    RequestEmailResult × Bool :=
  match get_user_by_email email db with
  | none => (RequestEmailResult.attributeError, false)
  | some user =>
    if user.confirmed then
      (RequestEmailResult.message "Your email is already confirmed", false)
    else
      (RequestEmailResult.message "Check your email for confirmation.", true)

/-! ### `src/routes/contacts.py` -/

/-- Attribute lookup on the module `src.repository.contacts` for a
contact-creating function: the module defines `get_contacts`,
`get_all_contacts`, `get_contact`, `create_todo`, `update_contact` and
`remove_contact` — the only creation function it defines is named
`create_todo`, so looking up any other name yields nothing. -/
def contactsRepoCreateAttr (name : String) :
    Option (Nat → ContactSchema → List Contact → User → Contact × List Contact) :=
  if name = "create_todo" then some create_todo else none

/-- Outcome of the `POST /contacts/` handler. `attributeError` is the Python
`AttributeError` raised when the handler dereferences a module attribute
that does not exist (surfaced as a generic 500 server error). -/
inductive CreateContactResult where
  | attributeError
  | created (statusCode : Nat) (contact : Contact)
deriving DecidableEq, Repr

/-- Source `create_contact(body, db, user)` route handler: it calls
`repository_contacts.create_contact(body, db, user)` — the handler looks up
the attribute named "create_contact" on the repository module and applies
whatever it finds. -/
def routes_create_contact (freshId : Nat) (body : ContactSchema) (db : List Contact)
    (user : User) : CreateContactResult × List Contact :=
  match contactsRepoCreateAttr "create_contact" with
  | none => (CreateContactResult.attributeError, db)
  | some f =>
    let (contact, db') := f freshId body db user
    (CreateContactResult.created 201 contact, db')

/-! ### `src/database/db.py` -/

/-- Result of one pass through `DatabaseSessionManager.session`: either the
request body's value, or `swallowed` — the body raised, the generator caught
the exception, printed it, rolled back and returned without re-raising, so
the async context manager suppresses the exception. -/
inductive SessionOutcome (α : Type) where
  | ok (a : α)
  | swallowed
deriving DecidableEq, Repr

/-- Source `DatabaseSessionManager.session`: runs the request body inside
`try ... except Exception: print; rollback` with `finally: close`. Returns
(outcome, whether the scope committed, whether it rolled back). The scope
contains no `commit` call, and the `except` clause does not re-raise. -/
def session_scope {ε α : Type} (body : Except ε α) : SessionOutcome α × Bool × Bool :=
  match body with
  | Except.ok a => (SessionOutcome.ok a, false, false)
  | Except.error _ => (SessionOutcome.swallowed, false, true)

/-! ### Helper lemmas -/

/-- With row ids unique, the owner-filtered query for a contact someone else
owns returns no rows. -/
lemma ownerFilterEmpty (db : List Contact) (B : User) (c : Contact)
    (hmem : c ∈ db) (hid : c.user_id ≠ B.id)
    (huniq : (db.map Contact.id).Nodup) :
    db.filter (fun x => x.id = c.id ∧ x.user_id = B.id) = [] := by
  rw [List.filter_eq_nil_iff]
  intro a ha hpa
  simp only [decide_eq_true_eq] at hpa
  obtain ⟨hida, huida⟩ := hpa
  have hac : a = c := List.inj_on_of_nodup_map huniq ha hmem hida
  exact hid (hac ▸ huida)

/-! ### Theorems -/

/-- C1: a contact owned by user A is invisible and immutable to any other
user B through `get_contact`, `update_contact` and `remove_contact` (each
filters by both contact id and owning user, so the query returns no rows and
the state is unchanged), while the administrative `get_all_contacts` listing
still includes it. -/
theorem C1_owner_isolation (db : List Contact) (A B : User) (c : Contact)
    (body : ContactSchema)
    (hmem : c ∈ db) (hown : c.user_id = A.id) (hne : B.id ≠ A.id)
    (huniq : (db.map Contact.id).Nodup) :
    get_contact c.id db B = none ∧
    update_contact c.id body db B = (none, db) ∧
    remove_contact c.id db B = (none, db) ∧
    c ∈ get_all_contacts db.length 0 db := by
  have hid : c.user_id ≠ B.id := by rw [hown]; exact fun h => hne h.symm
  have hfilter := ownerFilterEmpty db B c hmem hid huniq
  refine ⟨?_, ?_, ?_, ?_⟩
  · unfold get_contact
    rw [hfilter]
    rfl
  · unfold update_contact
    rw [hfilter]
    rfl
  · unfold remove_contact
    rw [hfilter]
    rfl
  · unfold get_all_contacts
    rw [List.drop_zero, List.take_length]
    exact hmem

/-- Concrete instance of C1: one contact owned by user 1; user 2 cannot
read, update or delete it, and the administrative listing shows it. -/
theorem C1_owner_isolation_witness :
    get_contact 1
        [{ id := 1, first_name := "J", last_name := "D", email := "j@d.com",
           phone_number := "123", birthday := 20000101, data := none, user_id := 1 }]
        { id := 2, email := "b@x.com", username := "B", password := "h",
          confirmed := true, refresh_token := none, role := Role.user } = none ∧
    update_contact 1
        { first_name := "X", last_name := "Y", email := "x@y.com",
          phone_number := "9", birthday := 19990101, data := none }
        [{ id := 1, first_name := "J", last_name := "D", email := "j@d.com",
           phone_number := "123", birthday := 20000101, data := none, user_id := 1 }]
        { id := 2, email := "b@x.com", username := "B", password := "h",
          confirmed := true, refresh_token := none, role := Role.user } =
      (none,
        [{ id := 1, first_name := "J", last_name := "D", email := "j@d.com",
           phone_number := "123", birthday := 20000101, data := none, user_id := 1 }]) ∧
    remove_contact 1
        [{ id := 1, first_name := "J", last_name := "D", email := "j@d.com",
           phone_number := "123", birthday := 20000101, data := none, user_id := 1 }]
        { id := 2, email := "b@x.com", username := "B", password := "h",
          confirmed := true, refresh_token := none, role := Role.user } =
      (none,
        [{ id := 1, first_name := "J", last_name := "D", email := "j@d.com",
           phone_number := "123", birthday := 20000101, data := none, user_id := 1 }]) ∧
    ({ id := 1, first_name := "J", last_name := "D", email := "j@d.com",
       phone_number := "123", birthday := 20000101, data := none, user_id := 1 } : Contact) ∈
      get_all_contacts 1 0
        [{ id := 1, first_name := "J", last_name := "D", email := "j@d.com",
           phone_number := "123", birthday := 20000101, data := none, user_id := 1 }] :=
  C1_owner_isolation
    [{ id := 1, first_name := "J", last_name := "D", email := "j@d.com",
       phone_number := "123", birthday := 20000101, data := none, user_id := 1 }]
    { id := 1, email := "a@x.com", username := "A", password := "h",
      confirmed := true, refresh_token := none, role := Role.user }
    { id := 2, email := "b@x.com", username := "B", password := "h",
      confirmed := true, refresh_token := none, role := Role.user }
    { id := 1, first_name := "J", last_name := "D", email := "j@d.com",
      phone_number := "123", birthday := 20000101, data := none, user_id := 1 }
    { first_name := "X", last_name := "Y", email := "x@y.com",
      phone_number := "9", birthday := 19990101, data := none }
    (by decide) (by decide) (by decide) (by decide)

/-- C2: when the presented refresh token decodes to the email of an existing
user but differs from that user's stored `refresh_token`, the handler stores
`None` in the user's `refresh_token` (killing the session) and rejects with
401 Unauthorized. -/
theorem C2_refresh_mismatch (decode : String → Option String) (a r token email : String)
    (db : List User) (user : User)
    (hdec : decode token = some email)
    (hfind : get_user_by_email email db = some user)
    (hmis : user.refresh_token ≠ some token) :
    refresh_token_route decode a r token db =
      (RefreshResult.httpError 401 "Invalid refresh token", update_token user none db) ∧
    ∀ u ∈ update_token user none db, u.id = user.id → u.refresh_token = none := by
  constructor
  · unfold refresh_token_route
    rw [hdec]
    dsimp only
    rw [hfind]
    dsimp only
    rw [if_pos hmis]
  · intro u hu hid
    unfold update_token at hu
    obtain ⟨v, hv, hvu⟩ := List.mem_map.mp hu
    by_cases h : v.id = user.id
    · rw [if_pos h] at hvu
      rw [← hvu]
    · rw [if_neg h] at hvu
      exact absurd (hvu ▸ hid) h

/-- Concrete instance of C2: the stored token is "old", the presented token
is "stolen"; the request is rejected and the stored token becomes null. -/
theorem C2_refresh_mismatch_witness :
    refresh_token_route (fun _ => some "a@x.com") "acc" "ref" "stolen"
        [{ id := 1, email := "a@x.com", username := "A", password := "h",
           confirmed := true, refresh_token := some "old", role := Role.user }] =
      (RefreshResult.httpError 401 "Invalid refresh token",
        update_token
          { id := 1, email := "a@x.com", username := "A", password := "h",
            confirmed := true, refresh_token := some "old", role := Role.user }
          none
          [{ id := 1, email := "a@x.com", username := "A", password := "h",
             confirmed := true, refresh_token := some "old", role := Role.user }]) ∧
    ∀ u ∈ update_token
        { id := 1, email := "a@x.com", username := "A", password := "h",
          confirmed := true, refresh_token := some "old", role := Role.user }
        none
        [{ id := 1, email := "a@x.com", username := "A", password := "h",
           confirmed := true, refresh_token := some "old", role := Role.user }],
      u.id = 1 → u.refresh_token = none :=
  C2_refresh_mismatch (fun _ => some "a@x.com") "acc" "ref" "stolen" "a@x.com"
    [{ id := 1, email := "a@x.com", username := "A", password := "h",
       confirmed := true, refresh_token := some "old", role := Role.user }]
    { id := 1, email := "a@x.com", username := "A", password := "h",
      confirmed := true, refresh_token := some "old", role := Role.user }
    rfl (by decide) (by decide)

/-- C3: a login for an existing but unconfirmed account is rejected with the
"Email not confirmed" 401 outcome for every password and every verifier, and
the state is unchanged — the confirmation check runs after the email lookup
and before password verification, so the password is never consulted. -/
theorem C3_login_unconfirmed (db : List User) (username : String) (user : User)
    (hfind : get_user_by_email username db = some user)
    (hunconf : user.confirmed = false) :
    ∀ (verify : String → String → Bool) (a r password : String),
      login verify a r username password db =
        (LoginResult.httpError 401 "Email not confirmed", db) := by
  intro verify a r password
  unfold login
  rw [hfind]
  simp [hunconf]

/-- Concrete instance of C3: an unconfirmed account whose submitted password
is correct (the verifier accepts everything) is still rejected. -/
theorem C3_login_unconfirmed_witness :
    login (fun _ _ => true) "acc" "ref" "a@x.com" "pw"
        [{ id := 1, email := "a@x.com", username := "A", password := "pw",
           confirmed := false, refresh_token := none, role := Role.user }] =
      (LoginResult.httpError 401 "Email not confirmed",
        [{ id := 1, email := "a@x.com", username := "A", password := "pw",
           confirmed := false, refresh_token := none, role := Role.user }]) :=
  C3_login_unconfirmed
    [{ id := 1, email := "a@x.com", username := "A", password := "pw",
       confirmed := false, refresh_token := none, role := Role.user }]
    "a@x.com"
    { id := 1, email := "a@x.com", username := "A", password := "pw",
      confirmed := false, refresh_token := none, role := Role.user }
    (by decide) rfl (fun _ _ => true) "acc" "ref" "pw"

/-- C4: on a fully successful login the refresh token in the response equals
the value persisted as the user's `refresh_token`, overwriting whatever was
stored before. -/
theorem C4_login_roundtrip (db : List User) (username password : String) (user : User)
    (verify : String → String → Bool) (a r : String)
    (hfind : get_user_by_email username db = some user)
    (hconf : user.confirmed = true)
    (hverify : verify password user.password = true) :
    login verify a r username password db =
      (LoginResult.tokens a r "bearer", update_token user (some r) db) ∧
    ∀ u ∈ update_token user (some r) db, u.id = user.id → u.refresh_token = some r := by
  constructor
  · unfold login
    rw [hfind]
    simp [hconf, hverify]
  · intro u hu hid
    unfold update_token at hu
    obtain ⟨v, hv, hvu⟩ := List.mem_map.mp hu
    by_cases h : v.id = user.id
    · rw [if_pos h] at hvu
      rw [← hvu]
    · rw [if_neg h] at hvu
      exact absurd (hvu ▸ hid) h

/-- Concrete instance of C4: a confirmed user with a previously stored
refresh token logs in; the response token "ref2" is also the stored one. -/
theorem C4_login_roundtrip_witness :
    login (fun p h => p = h) "acc2" "ref2" "a@x.com" "pw"
        [{ id := 1, email := "a@x.com", username := "A", password := "pw",
           confirmed := true, refresh_token := some "ref1", role := Role.user }] =
      (LoginResult.tokens "acc2" "ref2" "bearer",
        update_token
          { id := 1, email := "a@x.com", username := "A", password := "pw",
            confirmed := true, refresh_token := some "ref1", role := Role.user }
          (some "ref2")
          [{ id := 1, email := "a@x.com", username := "A", password := "pw",
             confirmed := true, refresh_token := some "ref1", role := Role.user }]) ∧
    ∀ u ∈ update_token
        { id := 1, email := "a@x.com", username := "A", password := "pw",
          confirmed := true, refresh_token := some "ref1", role := Role.user }
        (some "ref2")
        [{ id := 1, email := "a@x.com", username := "A", password := "pw",
           confirmed := true, refresh_token := some "ref1", role := Role.user }],
      u.id = 1 → u.refresh_token = some "ref2" :=
  C4_login_roundtrip
    [{ id := 1, email := "a@x.com", username := "A", password := "pw",
       confirmed := true, refresh_token := some "ref1", role := Role.user }]
    "a@x.com" "pw"
    { id := 1, email := "a@x.com", username := "A", password := "pw",
      confirmed := true, refresh_token := some "ref1", role := Role.user }
    (fun p h => p = h) "acc2" "ref2"
    (by decide) rfl (by decide)

/-- C5 (code bug): for a confirmed existing user whose password fails
verification, the handler does not produce a 401 response; the bad-password
branch constructs `HTTPException` with the misspelled keyword `tatus_code`,
which raises a `TypeError` (a generic 500 server error) and leaves the user
table untouched. Evaluated here at a concrete failing input, with a second
conjunct showing the outcome is not a 401 for any detail string. -/
theorem C5_bad_password_typeerror :
    login (fun _ _ => false) "acc" "ref" "a@x.com" "wrong"
        [{ id := 1, email := "a@x.com", username := "A", password := "hash",
           confirmed := true, refresh_token := none, role := Role.user }] =
      (LoginResult.typeError,
        [{ id := 1, email := "a@x.com", username := "A", password := "hash",
           confirmed := true, refresh_token := none, role := Role.user }]) ∧
    ∀ d : String,
      (login (fun _ _ => false) "acc" "ref" "a@x.com" "wrong"
          [{ id := 1, email := "a@x.com", username := "A", password := "hash",
             confirmed := true, refresh_token := none, role := Role.user }]).1 ≠
        LoginResult.httpError 401 d := by
  have h1 : login (fun _ _ => false) "acc" "ref" "a@x.com" "wrong"
      [{ id := 1, email := "a@x.com", username := "A", password := "hash",
         confirmed := true, refresh_token := none, role := Role.user }] =
      (LoginResult.typeError,
        [{ id := 1, email := "a@x.com", username := "A", password := "hash",
           confirmed := true, refresh_token := none, role := Role.user }]) := by
    decide
  refine ⟨h1, fun d h => ?_⟩
  rw [h1] at h
  exact LoginResult.noConfusion h

/-- C6: accounts are created unconfirmed; a valid confirmation flow sets
`confirmed` to true; repeating the confirmation for an already-confirmed
user returns the already-confirmed message and leaves the state unchanged;
and the confirmation route never reverts a confirmed flag (pointwise, the
new table keeps every `confirmed = true`). -/
theorem C6_confirmation_lifecycle
    (getEmail : String → Option String) (token email : String) (db : List User)
    (user : User)
    (hget : getEmail token = some email)
    (hfind : get_user_by_email email db = some user) :
    (∀ (freshId : Nat) (e un pw : String) (d : List User),
        (create_user freshId e un pw d).1.confirmed = false) ∧
    (user.confirmed = false →
        confirmed_email_route getEmail token db =
          (ConfirmResult.message "Email confirmed", confirmed_email_repo email db) ∧
        ∀ u ∈ confirmed_email_repo email db, u.email = email → u.confirmed = true) ∧
    (user.confirmed = true →
        confirmed_email_route getEmail token db =
          (ConfirmResult.message "Your email is already confirmed", db)) ∧
    List.Forall₂ (fun o n => o.confirmed = true → n.confirmed = true) db
      (confirmed_email_route getEmail token db).2 := by
  have hroute : confirmed_email_route getEmail token db =
      (if user.confirmed then (ConfirmResult.message "Your email is already confirmed", db)
       else (ConfirmResult.message "Email confirmed", confirmed_email_repo email db)) := by
    unfold confirmed_email_route
    rw [hget]
    dsimp only
    rw [hfind]
  refine ⟨fun _ _ _ _ _ => rfl, ?_, ?_, ?_⟩
  · intro hunconf
    constructor
    · rw [hroute, hunconf]
      rfl
    · intro u hu hmail
      unfold confirmed_email_repo at hu
      obtain ⟨v, hv, hvu⟩ := List.mem_map.mp hu
      by_cases h : v.email = email
      · rw [if_pos h] at hvu
        rw [← hvu]
      · rw [if_neg h] at hvu
        exact absurd (hvu ▸ hmail) h
  · intro hconf
    rw [hroute, hconf]
    rfl
  · rw [hroute]
    by_cases hconf : user.confirmed
    · rw [if_pos hconf]
      exact (List.forall₂_same).mpr (fun x _ h => h)
    · rw [if_neg hconf]
      dsimp only
      unfold confirmed_email_repo
      refine (List.forall₂_map_right_iff).mpr ((List.forall₂_same).mpr ?_)
      intro x _ hx
      by_cases h : x.email = email
      · rw [if_pos h]
      · rw [if_neg h]
        exact hx

/-- Concrete instance of C6: confirming an unconfirmed user mutates the
table through the repository and reports "Email confirmed". -/
theorem C6_confirmation_lifecycle_witness :
    confirmed_email_route (fun _ => some "a@x.com") "tok"
        [{ id := 1, email := "a@x.com", username := "A", password := "h",
           confirmed := false, refresh_token := none, role := Role.user }] =
      (ConfirmResult.message "Email confirmed",
        confirmed_email_repo "a@x.com"
          [{ id := 1, email := "a@x.com", username := "A", password := "h",
             confirmed := false, refresh_token := none, role := Role.user }]) :=
  ((C6_confirmation_lifecycle (fun _ => some "a@x.com") "tok" "a@x.com"
      [{ id := 1, email := "a@x.com", username := "A", password := "h",
         confirmed := false, refresh_token := none, role := Role.user }]
      { id := 1, email := "a@x.com", username := "A", password := "h",
        confirmed := false, refresh_token := none, role := Role.user }
      rfl (by decide)).2.1 rfl).1

/-- C7: a signup for an already-registered email is rejected with 409 and
creates nothing (state unchanged, no email scheduled); a signup for a fresh
email stores the hash of the submitted password, creates an unconfirmed
account, returns it with 201, and schedules the confirmation email (the
scheduling flag records `bt.add_task`; delivery happens after the response
and cannot affect it). -/
theorem C7_signup_protocol (hash : String → String) (freshId : Nat)
    (email username password : String) (db : List User) :
    (∀ u, get_user_by_email email db = some u →
        signup hash freshId email username password db =
          (SignupResult.httpError 409 "Account already exists", false, db)) ∧
    (get_user_by_email email db = none →
        signup hash freshId email username password db =
          (SignupResult.created 201
              { id := freshId, email := email, username := username,
                password := hash password, confirmed := false,
                refresh_token := none, role := Role.user },
            true,
            db ++ [{ id := freshId, email := email, username := username,
                     password := hash password, confirmed := false,
                     refresh_token := none, role := Role.user }])) := by
  constructor
  · intro u hu
    unfold signup
    rw [hu]
  · intro h
    unfold signup
    rw [h]
    rfl

/-- Concrete instance of C7: signup on an empty user table creates the
unconfirmed account and schedules the email. -/
theorem C7_signup_protocol_witness :
    signup (fun _ => "hashed") 1 "a@x.com" "A" "pw" [] =
      (SignupResult.created 201
          { id := 1, email := "a@x.com", username := "A", password := "hashed",
            confirmed := false, refresh_token := none, role := Role.user },
        true,
        [{ id := 1, email := "a@x.com", username := "A", password := "hashed",
           confirmed := false, refresh_token := none, role := Role.user }]) :=
  (C7_signup_protocol (fun _ => "hashed") 1 "a@x.com" "A" "pw" []).2 rfl

/-- C8 (code bug): the `POST /contacts/` handler calls
`repository_contacts.create_contact`, an attribute the repository module
does not define (its creation function is named `create_todo`), so every
such request raises `AttributeError` (a generic 500 server error) and
persists nothing — no contact is ever created and no 201 is returned. -/
theorem C8_create_contact_attribute_error (freshId : Nat) (body : ContactSchema)
    (db : List Contact) (user : User) :
    routes_create_contact freshId body db user =
      (CreateContactResult.attributeError, db) := by
  unfold routes_create_contact contactsRepoCreateAttr
  rw [if_neg (by decide : ¬("create_contact" = "create_todo"))]

/-- C9 (code bug): one pass through `DatabaseSessionManager.session` — on a
normal body the scope returns the value without ever committing, and on a
fault it rolls back and swallows the exception (the `except` clause prints
and returns without re-raising, so the async context manager suppresses it)
instead of propagating a server error. -/
theorem C9_session_scope_no_commit_swallows :
    (∀ a : Nat, session_scope (Except.ok a : Except String Nat) =
        (SessionOutcome.ok a, false, false)) ∧
    (∀ e : String, session_scope (Except.error e : Except String Nat) =
        (SessionOutcome.swallowed, false, true)) :=
  ⟨fun _ => rfl, fun _ => rfl⟩

/-- C10: when `/auth/request_email` is called with an email that matches no
user, the handler evaluates `user.confirmed` on the `None` lookup result
before its `if user:` existence check, so the request faults with
`AttributeError` (a server error) and never returns the check-your-email
message. -/
theorem C10_request_email_none_faults (email : String) (db : List User)
    (habs : get_user_by_email email db = none) :
    request_email_route email db = (RequestEmailResult.attributeError, false) ∧
    (request_email_route email db).1 ≠
      RequestEmailResult.message "Check your email for confirmation." := by
  have h1 : request_email_route email db = (RequestEmailResult.attributeError, false) := by
    unfold request_email_route
    rw [habs]
  refine ⟨h1, ?_⟩
  rw [h1]
  exact fun h => RequestEmailResult.noConfusion h

/-- Concrete instance of C10: an unknown email against an empty user table
faults instead of answering. -/
theorem C10_request_email_none_faults_witness :
    request_email_route "ghost@x.com" [] =
      (RequestEmailResult.attributeError, false) ∧
    (request_email_route "ghost@x.com" []).1 ≠
      RequestEmailResult.message "Check your email for confirmation." :=
  C10_request_email_none_faults "ghost@x.com" [] rfl

end HWW14
